import Mathlib

/-!
Verification of the Locate918 LLM service (llm-service/app).

The service wraps an external generative-model provider.  The provider
itself, together with the Python stdlib JSON codec, is external to the
repository, so the embedded gateway operations take them as explicit
function parameters:

* `loads : String → Except String PyVal` stands for `json.loads` applied to
  the model response text (`.error` = `json.JSONDecodeError` raised);
* `dumps : PyVal → String` stands for `json.dumps`;
* a model oracle stands for the genai SDK call that turns a prompt (and,
  for chat, a system instruction, history and message) into a response.

Everything else is translated directly from
`src/llm-service/app/services/gemini.py` and `src/llm-service/app/main.py`.
-/

/-- A Python/JSON value as handled by the service.  Numeric values are
never computed with by this service, so an `Int` payload suffices. -/
inductive PyVal where
  | null : PyVal
  | bool : Bool → PyVal
  | num : Int → PyVal
  | str : String → PyVal
  | arr : List PyVal → PyVal
  | obj : List (String × PyVal) → PyVal

/-- Dictionary key lookup, `d[k]` / `k in d` on a parsed JSON value. -/
def lookupKey : PyVal → String → Option PyVal
  | .obj fields, k => fields.lookup k
  | _, _ => none

/-- Whether a parsed JSON value is an object (a Python `dict`). -/
def PyVal.isObj : PyVal → Bool
  | .obj _ => true
  | _ => false

/-- Whether a parsed JSON value is an array (a Python `list`). -/
def PyVal.isArr : PyVal → Bool
  | .arr _ => true
  | _ => false

/-- Python string slicing `s[:n]`: the first `n` characters of `s`
(all of `s` when `s` is shorter). -/
def pyStrSliceTo (s : String) (n : Nat) : String :=
  String.mk (s.data.take n)

/-- Python truthiness of an `Optional[str]`: `None` and `""` are falsy. -/
def pyTruthyOptStr : Option String → Bool
  | none => false
  | some s => !(s == "")

/-- Python `x or default` on an `Optional[str]`. -/
def pyOrStr (x : Option String) (default : String) : String :=
  match x with
  | none => default
  | some s => if s == "" then default else s

-- ## gemini.py : module-level startup

/-- Module-level startup of gemini.py:
`API_KEY = os.getenv("GEMINI_API_KEY"); if not API_KEY: raise ValueError(...)`.
`env` is the process environment; the raised `ValueError` is the `.error`
branch. -/
def geminiStartup (env : String → Option String) : Except String String :=
  let api_key := env "GEMINI_API_KEY"
  if pyTruthyOptStr api_key then
    Except.ok (pyOrStr api_key "")
  else
    Except.error "GEMINI_API_KEY not found in environment variables"

-- ## gemini.py : tool schema

/-- The property names of `search_events_tool_schema.parameters` in
gemini.py, i.e. the SearchParams key set. -/
def searchParamsKeys : List String :=
  ["q", "category", "start_date", "end_date", "price_max", "location",
   "family_friendly", "outdoor"]

-- ## gemini.py : parse_user_intent

/-- The f-string prompt built by `parse_user_intent` around `message`. -/
def parseUserIntentPrompt (message : String) : String :=
  "\n    Extract search parameters from this query: \"" ++ message ++
  "\"\n    \n    Output a valid JSON object with any of the following keys based on the query: \n    q, category, start_date, end_date, price_max, location, family_friendly, outdoor.\n    Use null for missing fields.\n    For dates, convert \"this weekend\" or \"tomorrow\" to approximate ISO dates based on current context.\n    "

/-- Embedding of `parse_user_intent(message)`: send the prompt to the JSON-mode model,
`json.loads` the response text; on `JSONDecodeError` fall back to
`{"q": message}`. -/
def parse_user_intent (loads : String → Except String PyVal)
    (model : String → String) (message : String) : PyVal :=
  let response_text := model (parseUserIntentPrompt message)
  match loads response_text with
  | .ok v => v
  | .error _ => PyVal.obj [("q", PyVal.str message)]

-- ## gemini.py : normalize_events

/-- The literal text of the normalize prompt before `{source_url}`. -/
def normalizePromptLit1 : String :=
  "\n    Extract events from the following HTML from "

/-- The literal text of the normalize prompt between `{source_url}` and
`{raw_html[:30000]}`. -/
def normalizePromptLit2 : String :=
  ".\n    Return a JSON list of objects with keys: title, venue, start_time (ISO), price_min, price_max, description, image_url.\n    \n    HTML:\n    "

/-- The literal text of the normalize prompt after `{raw_html[:30000]}`
(the stray Python comment sits inside the f-string in the source). -/
def normalizePromptLit3 : String :=
  "  # Truncating to keep prompts manageable, though Flash has a 1M context window\n    "

/-- The f-string prompt built by `normalize_events`, embedding
`{source_url}` and `{raw_html[:30000]}`. -/
def normalizeEventsPrompt (raw_html source_url : String) : String :=
  normalizePromptLit1 ++ source_url ++ normalizePromptLit2 ++
  pyStrSliceTo raw_html 30000 ++ normalizePromptLit3

/-- Embedding of `normalize_events(raw_html, source_url)`: send the prompt to the
JSON-mode model, `json.loads` the response text; on `JSONDecodeError`
return `[]`.  Only `JSONDecodeError` is caught: a successfully parsed
value is returned whatever its shape. -/
def normalize_events (loads : String → Except String PyVal)
    (model : String → String) (raw_html source_url : String) : PyVal :=
  let response_text := model (normalizeEventsPrompt raw_html source_url)
  match loads response_text with
  | .ok v => v
  | .error _ => PyVal.arr []

-- ## gemini.py : generate_chat_response

/-- One history turn, `{'role': ..., 'parts': [...]}`. -/
structure Turn where
  role : String
  parts : List String

/-- A function call attached to a response part (`fc.name`, `fc.args`);
`dict(fc.args)` in the source is the identity on the key/value entries. -/
structure FunctionCall where
  name : String
  args : List (String × PyVal)

/-- One part of a model response; `function_call` is falsy/absent when the
part carries no function call. -/
structure ResponsePart where
  function_call : Option FunctionCall

/-- The model response object used by `generate_chat_response`:
its `parts` sequence and its `text` accessor. -/
structure GenaiResponse where
  parts : List ResponsePart
  text : String

/-- The tool_call dictionary `{"name": ..., "args": ...}` returned on the
tool branch. -/
structure ToolCall where
  name : String
  args : List (String × PyVal)

/-- The return shape of `generate_chat_response` (schemas.ChatResponse):
`{"text": ..., "tool_call": ...}`, each field optional. -/
structure ChatResponse where
  text : Option String
  tool_call : Option ToolCall

/-- The f-string system instruction built by `generate_chat_response`
around `json.dumps(user_profile)`. -/
def chatSystemInstruction (user_profile_json : String) : String :=
  "\n    You are Tully, a friendly and knowledgeable event guide for Tulsa, OK (area code 918).\n    User Profile: " ++ user_profile_json ++
  "\n    \n    If the user asks for events, use the `search_events` tool.\n    If the user asks about weather or directions, answer generally or suggest checking a map.\n    Be concise, enthusiastic, and helpful.\n    "

/-- Embedding of `generate_chat_response(message, history, user_profile)`.
`send_message` is the genai chat session: it receives the system
instruction, the seeding history and the new message, and yields the model
response.  The source's branch
`if response.parts and response.parts[0].function_call:` inspects only the
first part. -/
def generate_chat_response (dumps : PyVal → String)
    (send_message : String → List Turn → String → GenaiResponse)
    (message : String) (history : List Turn) (user_profile : PyVal) :
    ChatResponse :=
  let system_instruction := chatSystemInstruction (dumps user_profile)
  let response := send_message system_instruction history message
  match response.parts with
  | p :: _ =>
    match p.function_call with
    | some fc =>
      { text := none, tool_call := some { name := fc.name, args := fc.args } }
    | none => { text := some response.text, tool_call := none }
  | [] => { text := some response.text, tool_call := none }

-- ## main.py : route handlers

/-- main.py's ChatRequest model: `message`, optional `user_id`,
optional `conversation_id`. -/
structure MainChatRequest where
  message : String
  user_id : Option String
  conversation_id : Option String

/-- main.py's SearchRequest model: `query`. -/
structure MainSearchRequest where
  query : String

/-- Handler of `GET /` in main.py. -/
def root : PyVal :=
  PyVal.obj [("status", PyVal.str "online"), ("service", PyVal.str "Locate918 LLM")]

/-- Handler of `GET /health` in main.py. -/
def health_check : PyVal :=
  PyVal.obj [("status", PyVal.str "ok")]

/-- Handler of `POST /api/chat` in main.py: returns a fixed placeholder body;
`request.conversation_id or "test"` is Python `or` on an `Optional[str]`. -/
def chat (request : MainChatRequest) : PyVal :=
  PyVal.obj
    [("message", PyVal.str "Tully is online! (This is a placeholder response.)"),
     ("events", PyVal.arr []),
     ("conversation_id", PyVal.str (pyOrStr request.conversation_id "test"))]

/-- Handler of `POST /api/search` in main.py. -/
def search (request : MainSearchRequest) : PyVal :=
  PyVal.obj
    [("events", PyVal.arr []),
     ("parsed", PyVal.obj [("query", PyVal.str request.query)])]

-- # Theorems

/-- C1: every result of `generate_chat_response` has exactly one of
`text` / `tool_call` non-absent: the tool branch sets `text := none` with
`tool_call` populated, and the text branch sets `text` populated with
`tool_call := none`. -/
theorem c1_chat_response_mutual_exclusivity
    (dumps : PyVal → String)
    (send_message : String → List Turn → String → GenaiResponse)
    (message : String) (history : List Turn) (user_profile : PyVal) :
    (generate_chat_response dumps send_message message history user_profile).text.isSome
      ≠ (generate_chat_response dumps send_message message history user_profile).tool_call.isSome := by
  unfold generate_chat_response
  cases hp : (send_message (chatSystemInstruction (dumps user_profile)) history message).parts with
  | nil => simp [hp]
  | cons p rest =>
    cases hfc : p.function_call with
    | none => simp [hp, hfc]
    | some fc => simp [hp, hfc]

/-- C5: whenever the model output for `parse_user_intent` fails to parse as
JSON, the result is exactly the object with the single key `q` bound to the
original message; the parse error is absorbed. -/
theorem c5_parse_intent_fallback
    (loads : String → Except String PyVal) (model : String → String)
    (message : String) (e : String)
    (h : loads (model (parseUserIntentPrompt message)) = Except.error e) :
    parse_user_intent loads model message = PyVal.obj [("q", PyVal.str message)] := by
  unfold parse_user_intent
  simp [h]

/-- Concrete instance of C5: a non-JSON model output yields the
single-key fallback. -/
theorem c5_parse_intent_fallback_witness :
    (fun _ : String => (Except.error "Expecting value: line 1 column 1 (char 0)" : Except String PyVal))
        ((fun _ : String => "not json") (parseUserIntentPrompt "jazz concerts this weekend"))
      = Except.error "Expecting value: line 1 column 1 (char 0)"
    ∧ parse_user_intent
        (fun _ => Except.error "Expecting value: line 1 column 1 (char 0)")
        (fun _ => "not json") "jazz concerts this weekend"
      = PyVal.obj [("q", PyVal.str "jazz concerts this weekend")] :=
  ⟨rfl, c5_parse_intent_fallback _ _ _ _ rfl⟩

/-- C9: when the model output of `parse_user_intent` is valid JSON whose
top-level value is not an object, that value is returned unchanged; the
fallback only answers a raised decode error. -/
theorem c9_parse_intent_nonobject_passthrough
    (loads : String → Except String PyVal) (model : String → String)
    (message : String) (v : PyVal)
    (hok : loads (model (parseUserIntentPrompt message)) = Except.ok v)
    (hno : v.isObj = false) :
    parse_user_intent loads model message = v := by
  unfold parse_user_intent
  simp [hok]

/-- Concrete instance of C9: a JSON array output is returned as is. -/
theorem c9_parse_intent_nonobject_passthrough_witness :
    (fun _ : String => (Except.ok (PyVal.arr [PyVal.str "jazz"]) : Except String PyVal))
        ((fun _ : String => "[\"jazz\"]") (parseUserIntentPrompt "jazz"))
      = Except.ok (PyVal.arr [PyVal.str "jazz"])
    ∧ (PyVal.arr [PyVal.str "jazz"]).isObj = false
    ∧ parse_user_intent (fun _ => Except.ok (PyVal.arr [PyVal.str "jazz"]))
        (fun _ => "[\"jazz\"]") "jazz" = PyVal.arr [PyVal.str "jazz"] :=
  ⟨rfl, rfl, c9_parse_intent_nonobject_passthrough _ _ _ _ rfl rfl⟩

/-- C3 counterexample: a model output carrying the key `bogus`, outside the
SearchParams key set, is NOT dropped by `parse_user_intent`: the key
survives in the result, so no coercion to the SearchParams key set
happens. -/
theorem c3_counterexample :
    ("bogus" ∈ searchParamsKeys → False)
    ∧ lookupKey (parse_user_intent
        (fun _ => Except.ok (PyVal.obj [("q", PyVal.str "jazz"), ("bogus", PyVal.num 1)]))
        (fun _ => "x") "jazz concerts") "bogus" = some (PyVal.num 1) :=
  ⟨by decide, rfl⟩

/-- C3 amended: when the model output parses as a JSON object, that object
is returned unchanged — no key is dropped and no coercion is applied, so
exactly the keys the model emitted (known or not) appear in the result. -/
theorem c3_parse_intent_no_key_filtering
    (loads : String → Except String PyVal) (model : String → String)
    (message : String) (fields : List (String × PyVal))
    (hok : loads (model (parseUserIntentPrompt message)) = Except.ok (PyVal.obj fields)) :
    parse_user_intent loads model message = PyVal.obj fields := by
  unfold parse_user_intent
  simp [hok]

/-- Concrete instance of the amended C3: an object with an unknown key is
returned whole. -/
theorem c3_parse_intent_no_key_filtering_witness :
    (fun _ : String => (Except.ok (PyVal.obj [("category", PyVal.str "music"), ("mood", PyVal.str "chill")]) : Except String PyVal))
        ((fun _ : String => "x") (parseUserIntentPrompt "chill music"))
      = Except.ok (PyVal.obj [("category", PyVal.str "music"), ("mood", PyVal.str "chill")])
    ∧ parse_user_intent
        (fun _ => Except.ok (PyVal.obj [("category", PyVal.str "music"), ("mood", PyVal.str "chill")]))
        (fun _ => "x") "chill music"
      = PyVal.obj [("category", PyVal.str "music"), ("mood", PyVal.str "chill")] :=
  ⟨rfl, c3_parse_intent_no_key_filtering _ _ _ _ rfl⟩

/-- C2: at a model output that is valid JSON but not an array (the JSON
string "hello"), `normalize_events` returns the parsed non-array value
unchanged instead of the empty sequence promised by the spec and by the
function's own `List[Dict]` return annotation. -/
theorem c2_normalize_nonarray_not_emptied :
    normalize_events (fun _ => Except.ok (PyVal.str "hello")) (fun _ => "\"hello\"")
        "<html><body>no events here</body></html>" "https://example.com/events"
      = PyVal.str "hello"
    ∧ (PyVal.str "hello").isArr = false :=
  ⟨rfl, rfl⟩

/-- C6: for `raw_html` longer than 30,000 characters, the HTML fragment
embedded in the normalize prompt is exactly the first 30,000 characters of
`raw_html`: the prompt decomposes around that fragment, the fragment has
length 30,000, and it is an initial segment of `raw_html`. -/
theorem c6_normalize_truncation (raw_html source_url : String)
    (h : 30000 < raw_html.length) :
    normalizeEventsPrompt raw_html source_url =
      normalizePromptLit1 ++ source_url ++ normalizePromptLit2 ++
        String.mk (raw_html.data.take 30000) ++ normalizePromptLit3
    ∧ (pyStrSliceTo raw_html 30000).length = 30000
    ∧ ∃ rest, raw_html.data = (pyStrSliceTo raw_html 30000).data ++ rest := by
  refine ⟨rfl, ?_, ?_⟩
  · have hl : raw_html.data.length = raw_html.length := rfl
    show (List.take 30000 raw_html.data).length = 30000
    rw [List.length_take, hl]
    omega
  · exact ⟨raw_html.data.drop 30000, (List.take_append_drop 30000 raw_html.data).symm⟩

/-- A 30,001-character input used to instantiate the truncation theorem. -/
def bigHtml : String := String.mk (List.replicate 30001 'a')

/-- Concrete instance of C6 at a 30,001-character input. -/
theorem c6_normalize_truncation_witness :
    30000 < bigHtml.length
    ∧ (normalizeEventsPrompt bigHtml "https://example.com/events" =
        normalizePromptLit1 ++ "https://example.com/events" ++ normalizePromptLit2 ++
          String.mk (bigHtml.data.take 30000) ++ normalizePromptLit3
      ∧ (pyStrSliceTo bigHtml 30000).length = 30000
      ∧ ∃ rest, bigHtml.data = (pyStrSliceTo bigHtml 30000).data ++ rest) :=
  have h : 30000 < bigHtml.length := by
    show 30000 < (List.replicate 30001 'a').length
    rw [List.length_replicate]
    omega
  ⟨h, c6_normalize_truncation bigHtml "https://example.com/events" h⟩

/-- C7: whenever the first part of the model response carries a function
call, `generate_chat_response` returns text absent and a tool_call whose
name and args are exactly the model's, unaltered. -/
theorem c7_tool_branch_exact
    (dumps : PyVal → String)
    (send_message : String → List Turn → String → GenaiResponse)
    (message : String) (history : List Turn) (user_profile : PyVal)
    (p : ResponsePart) (rest : List ResponsePart) (fc : FunctionCall)
    (hp : (send_message (chatSystemInstruction (dumps user_profile)) history message).parts = p :: rest)
    (hfc : p.function_call = some fc) :
    generate_chat_response dumps send_message message history user_profile =
      { text := none, tool_call := some { name := fc.name, args := fc.args } } := by
  unfold generate_chat_response
  simp [hp, hfc]

/-- A model response whose single part invokes the search tool. -/
def toolResponse : GenaiResponse :=
  { parts := [{ function_call := some { name := "search_events", args := [("category", PyVal.str "concerts")] } }],
    text := "" }

/-- Concrete instance of C7: the tool invocation is passed through
verbatim. -/
theorem c7_tool_branch_exact_witness :
    ((fun _ _ _ => toolResponse : String → List Turn → String → GenaiResponse)
        (chatSystemInstruction ((fun _ => "\x7b\x7d" : PyVal → String) (PyVal.obj []))) [] "find me a concert").parts
      = ({ function_call := some { name := "search_events", args := [("category", PyVal.str "concerts")] } } : ResponsePart) :: []
    ∧ ({ function_call := some { name := "search_events", args := [("category", PyVal.str "concerts")] } } : ResponsePart).function_call
      = some { name := "search_events", args := [("category", PyVal.str "concerts")] }
    ∧ generate_chat_response (fun _ => "\x7b\x7d") (fun _ _ _ => toolResponse)
        "find me a concert" [] (PyVal.obj []) =
      { text := none,
        tool_call := some { name := "search_events", args := [("category", PyVal.str "concerts")] } } :=
  ⟨rfl, rfl,
   c7_tool_branch_exact (fun _ => "\x7b\x7d") (fun _ _ _ => toolResponse)
     "find me a concert" [] (PyVal.obj [])
     { function_call := some { name := "search_events", args := [("category", PyVal.str "concerts")] } }
     [] { name := "search_events", args := [("category", PyVal.str "concerts")] } rfl rfl⟩

/-- C10: when the parts sequence is empty, or its first part carries no
function call, `generate_chat_response` takes the text branch — even if a
later part carries a function call. -/
theorem c10_first_part_only
    (dumps : PyVal → String)
    (send_message : String → List Turn → String → GenaiResponse)
    (message : String) (history : List Turn) (user_profile : PyVal)
    (h : (send_message (chatSystemInstruction (dumps user_profile)) history message).parts = []
       ∨ ∃ p rest,
           (send_message (chatSystemInstruction (dumps user_profile)) history message).parts = p :: rest
           ∧ p.function_call = none) :
    generate_chat_response dumps send_message message history user_profile =
      { text := some (send_message (chatSystemInstruction (dumps user_profile)) history message).text,
        tool_call := none } := by
  unfold generate_chat_response
  rcases h with h | ⟨p, rest, hp, hfc⟩
  · simp [h]
  · simp [hp, hfc]

/-- A model response whose second part carries a function call while the
first does not. -/
def lateToolResponse : GenaiResponse :=
  { parts := [{ function_call := none },
              { function_call := some { name := "search_events", args := [] } }],
    text := "I found 3 concerts!" }

/-- Concrete instance of C10: the function call in the second part is
ignored and the text branch is returned. -/
theorem c10_first_part_only_witness :
    (∃ p rest,
        ((fun _ _ _ => lateToolResponse : String → List Turn → String → GenaiResponse)
            (chatSystemInstruction ((fun _ => "\x7b\x7d" : PyVal → String) (PyVal.obj []))) [] "hi").parts
          = p :: rest
        ∧ p.function_call = none)
    ∧ generate_chat_response (fun _ => "\x7b\x7d") (fun _ _ _ => lateToolResponse)
        "hi" [] (PyVal.obj []) =
      { text := some "I found 3 concerts!", tool_call := none } :=
  ⟨⟨{ function_call := none }, [{ function_call := some { name := "search_events", args := [] } }], rfl, rfl⟩,
   c10_first_part_only (fun _ => "\x7b\x7d") (fun _ _ _ => lateToolResponse) "hi" [] (PyVal.obj [])
     (Or.inr ⟨{ function_call := none },
              [{ function_call := some { name := "search_events", args := [] } }], rfl, rfl⟩)⟩

/-- C8: when GEMINI_API_KEY is absent from the environment, the
module-level startup of gemini.py raises, so no configured service value is
ever produced and no request can be served. -/
theorem c8_missing_key_fatal (env : String → Option String)
    (h : env "GEMINI_API_KEY" = none) :
    geminiStartup env = Except.error "GEMINI_API_KEY not found in environment variables"
    ∧ ∀ k, geminiStartup env ≠ Except.ok k := by
  have h1 : geminiStartup env = Except.error "GEMINI_API_KEY not found in environment variables" := by
    unfold geminiStartup
    rw [h]
    rfl
  refine ⟨h1, fun k hk => ?_⟩
  rw [h1] at hk
  cases hk

/-- Concrete instance of C8 at the empty environment. -/
theorem c8_missing_key_fatal_witness :
    ((fun _ : String => (none : Option String)) "GEMINI_API_KEY" = none)
    ∧ (geminiStartup (fun _ => none) = Except.error "GEMINI_API_KEY not found in environment variables"
      ∧ ∀ k, geminiStartup (fun _ => none) ≠ Except.ok k) :=
  ⟨rfl, c8_missing_key_fatal (fun _ => none) rfl⟩

/-- C4 counterexample: on a valid chat request, the implemented
POST /api/chat handler returns a body with no `text` and no `tool_call`
field at all, but a placeholder `message` field — so the route does not
return a ChatResponse produced by the Gateway. -/
theorem c4_counterexample :
    lookupKey (chat { message := "find me a concert", user_id := none, conversation_id := none }) "text" = none
    ∧ lookupKey (chat { message := "find me a concert", user_id := none, conversation_id := none }) "tool_call" = none
    ∧ lookupKey (chat { message := "find me a concert", user_id := none, conversation_id := none }) "message"
        = some (PyVal.str "Tully is online! (This is a placeholder response.)") :=
  ⟨rfl, rfl, rfl⟩

/-- C4 amended: the implemented POST /api/chat handler computes a fixed
placeholder locally: its body carries `message`, empty `events` and
`conversation_id`, never `text` or `tool_call`, and depends only on the
request's `conversation_id` — no Gateway operation influences it. -/
theorem c4_chat_route_placeholder (request : MainChatRequest) :
    lookupKey (chat request) "text" = none
    ∧ lookupKey (chat request) "tool_call" = none
    ∧ lookupKey (chat request) "events" = some (PyVal.arr [])
    ∧ lookupKey (chat request) "message"
        = some (PyVal.str "Tully is online! (This is a placeholder response.)")
    ∧ chat request = chat { message := "", user_id := none, conversation_id := request.conversation_id } :=
  ⟨rfl, rfl, rfl, rfl, rfl⟩
